import Mathlib

/-!
Verification development for the visual query editor
(`src/components/QueryEditor/VisualQueryEditor.tsx`).

The component is shallowly embedded: the asynchronous layer (promises) is
modelled by passing the already-resolved values, and React `useMemo` is
modelled as an explicit dependency-keyed cache cell.  Machine-level details
(rendering, styling) are outside every claim and are not modelled.
-/

namespace VisualQueryEditor

/-- Grafana `FieldType` tags relevant to the editor (`@grafana/data`).
Only `time` is inspected by the code; the remaining tags stand for every
other classification result of the type mapper. -/
inductive FieldType where
  | time
  | number
  | string
  | boolean
  | other
deriving DecidableEq, Repr

/-- Grafana `SelectableValue<string>` as used here: a label/value pair. -/
structure SelectableValue where
  label : String
  value : String
deriving DecidableEq, Repr

/-- Source line 13: `const toOption = (value: string) => ({ label: value, value });` -/
def toOption (value : String) : SelectableValue :=
  { label := value, value := value }

/-- A column schema row returned by `client.queryColumnSchemaOfTable`:
a name together with its backend type tag (`column.data_type`), modelled
as the raw tag string. -/
structure ColumnSchema where
  name : String
  data_type : String
deriving DecidableEq, Repr

/-- The query record, restricted to the fields this editor reads and writes
(`fromTable`, `timeColumn`, `selectedColumns`).  Each field is `Option`al
because the host may hand over a record in which it is still `undefined`
(the code guards `selectedColumns` with `?? []` and the two others with
explicit fallbacks). -/
structure GreptimeQuery where
  fromTable : Option String
  timeColumn : Option String
  selectedColumns : Option (List String)
deriving DecidableEq, Repr

/-- The keys of `GreptimeQuery` that `changeQueryByKey` is invoked with. -/
inductive QueryKey where
  | fromTable
  | timeColumn
  | selectedColumns
deriving DecidableEq, Repr

/-- The type of the value stored at each key. -/
def ValueOf : QueryKey → Type
  | .fromTable => Option String
  | .timeColumn => Option String
  | .selectedColumns => Option (List String)

/-- Source lines 25–27:
`const changeQueryByKey = (key, value) => { onChange({ ...query, [key]: value }); };`
The spread builds a fresh record equal to `query` except at `key`. -/
def changeQueryByKey (query : GreptimeQuery) : (key : QueryKey) → ValueOf key → GreptimeQuery
  | .fromTable, value => { query with fromTable := value }
  | .timeColumn, value => { query with timeColumn := value }
  | .selectedColumns, value => { query with selectedColumns := value }

/-- Source lines 54–56: `fromTable ? client.queryColumnSchemaOfTable(fromTable)
: Promise.resolve([])` — the resolved column list is empty when no table is
chosen.  `queryColumnSchemaOfTable` is the resolved value of the client call. -/
def getColumnSchema (queryColumnSchemaOfTable : String → List ColumnSchema)
    (fromTable : Option String) : List ColumnSchema :=
  match fromTable with
  | some t => queryColumnSchemaOfTable t
  | none => []

/-- Source lines 63–68: filter the resolved columns to those whose mapped
Grafana type is `FieldType.time`, then turn each name into an option.
`mapGreptimeTypeToGrafana` (from `greptimedb/utils`, outside these sources)
is passed in as the type mapper. -/
def getTimeColumns (mapGreptimeTypeToGrafana : String → FieldType)
    (columns : List ColumnSchema) : List SelectableValue :=
  (columns.filter fun column => decide (mapGreptimeTypeToGrafana column.data_type = FieldType.time)).map
    fun column => toOption column.name

/-- Source line 72: `const selectedColumns = (oriSelectedColumns ?? []).concat(['foobar']);`
— the component's working list: the query's selection with the add-slot
sentinel `"foobar"` appended. -/
def selectedColumnsView (oriSelectedColumns : Option (List String)) : List String :=
  oriSelectedColumns.getD [] ++ ["foobar"]

/-- Source lines 74–77: `columns.filter((column) => !selectedColumns.includes(column.name))`
over the resolved columns, where `selectedColumns` is the sentinel-augmented
working list. -/
def unselectedColumnsSchemas (columns : List ColumnSchema)
    (selectedColumns : List String) : List ColumnSchema :=
  columns.filter fun column => !(selectedColumns.contains column.name)

/-- Source lines 79–81: map each still-unselected column schema to an option. -/
def handleLoadUnselectedColumns (columns : List ColumnSchema)
    (selectedColumns : List String) : List SelectableValue :=
  (unselectedColumnsSchemas columns selectedColumns).map fun column => toOption column.name

/-- Source lines 91–95: `[toOption(selfVal)].concat(await handleLoadUnselectedColumns())`. -/
def handleLoadReselectColumns (selfVal : String) (columns : List ColumnSchema)
    (selectedColumns : List String) : List SelectableValue :=
  [toOption selfVal] ++ handleLoadUnselectedColumns columns selectedColumns

/-- Source lines 83–86:
`const newSelectedColumns = selectedColumns.slice(0, -1).concat([select.value!]);`
(`slice(0, -1)` drops the trailing sentinel) followed by
`changeQueryByKey('selectedColumns', newSelectedColumns)`. -/
def handleAddColumn (query : GreptimeQuery) (select : SelectableValue) : GreptimeQuery :=
  let newSelectedColumns := (selectedColumnsView query.selectedColumns).dropLast ++ [select.value]
  changeQueryByKey query .selectedColumns (some newSelectedColumns)

/-- Source lines 121–127: the change handler of an already-selected column
slot is `onChange={() => { return; }}` — it performs no call to `onChange`,
so the gesture commits no query.  The result lists the queries handed to the
host's change callback during the gesture (here: none). -/
def reselectSlotOnChange (query : GreptimeQuery) (select : SelectableValue) :
    List GreptimeQuery :=
  []

/-- The host's view of the query after a gesture: the last query committed
through `onChange`, or the original query when nothing was committed. -/
def hostQueryAfter (query : GreptimeQuery) (commits : List GreptimeQuery) : GreptimeQuery :=
  commits.foldl (fun _ c => c) query

/-- lodash `defaults(object, source)` (source line 20): every field of
`object` that resolves to `undefined` is overwritten with the corresponding
field of `source`; lodash mutates `object` in place and returns it, so the
result below is also the post-call value of the host's query object. -/
def fillUndefined {α : Type} (dst src : Option α) : Option α :=
  match dst with
  | some v => some v
  | none => src

/-- lodash `defaults` specialised to the query record (source line 20:
`const query = defaults(oriQuery, defaultQuery);`). -/
def lodashDefaults (object source : GreptimeQuery) : GreptimeQuery :=
  { fromTable := fillUndefined object.fromTable source.fromTable
    timeColumn := fillUndefined object.timeColumn source.timeColumn
    selectedColumns := fillUndefined object.selectedColumns source.selectedColumns }

/-- Modelled from the spec: `defaultQuery` lives in `types.ts`, which is not
among these sources.  Spec §3 gives the query model — `fromTable` and
`timeColumn` optional, `selectedColumns` a (non-optional) ordered sequence —
and says a query is "created with defaults when the host first opens the
editor", so the defaults supply the empty selection and leave the two
optional fields unset. -/
def defaultQuery : GreptimeQuery :=
  { fromTable := none, timeColumn := none, selectedColumns := some [] }

/-- One React `useMemo` cache cell: the dependency key last seen together
with the value computed for it (`none` before the first render). -/
structure MemoCell (κ : Type) (α : Type) where
  entry : Option (κ × α)
deriving DecidableEq, Repr

/-- React `useMemo`, as documented by the source's own comment (lines 37–44):
"As long as the given variables in dependency array are not changed, the
promise will not be recreated."  A read with the cached key returns the
stored computation unchanged; any other key runs the producer and replaces
the entry.  The third component records whether the producer ran. -/
def useMemo {κ α : Type} [DecidableEq κ] (producer : κ → α) (key : κ)
    (cell : MemoCell κ α) : α × MemoCell κ α × Bool :=
  match cell.entry with
  | some (k, v) =>
    if k = key then (v, cell, false)
    else (producer key, ⟨some (key, producer key)⟩, true)
  | none => (producer key, ⟨some (key, producer key)⟩, true)

/-- Source lines 45–47: `useMemo(() => client.showTables(), [client])` — the
table-list computation, keyed by the client identity.  The computation's
resolved state is `Except`: `ok` a table list or `error` a rejection. -/
def getAllTablesMemo {ClientId : Type} [DecidableEq ClientId]
    (showTables : ClientId → Except String (List String)) (client : ClientId)
    (cell : MemoCell ClientId (Except String (List String))) :
    Except String (List String) × MemoCell ClientId (Except String (List String)) × Bool :=
  useMemo showTables client cell

/-- The producer of the column-list computation (source line 55):
`fromTable ? client.queryColumnSchemaOfTable(fromTable) : Promise.resolve([])`,
as a function of the dependency key (client identity, selected table). -/
def columnSchemaProducer {ClientId : Type}
    (queryColumnSchemaOfTable : ClientId → String → Except String (List ColumnSchema))
    (k : ClientId × Option String) : Except String (List ColumnSchema) :=
  match k.2 with
  | some t => queryColumnSchemaOfTable k.1 t
  | none => Except.ok []

/-- Source lines 54–56: `useMemo(() => fromTable ?
client.queryColumnSchemaOfTable(fromTable) : Promise.resolve([]),
[client, fromTable])` — the column-list computation, keyed by the pair
(client identity, selected table). -/
def getColumnSchemaMemo {ClientId : Type} [DecidableEq ClientId]
    (queryColumnSchemaOfTable : ClientId → String → Except String (List ColumnSchema))
    (client : ClientId) (fromTable : Option String)
    (cell : MemoCell (ClientId × Option String) (Except String (List ColumnSchema))) :
    Except String (List ColumnSchema) ×
      MemoCell (ClientId × Option String) (Except String (List ColumnSchema)) × Bool :=
  useMemo (columnSchemaProducer queryColumnSchemaOfTable) (client, fromTable) cell

/-- Spec-side reference (spec §4.2 wording, for comparison only): one option
per column, in input order, for exactly the columns whose name is neither in
the selection nor the sentinel. -/
def unselectedOptionsSpec (selected : List String) : List ColumnSchema → List SelectableValue
  | [] => []
  | column :: rest =>
    if column.name ∈ selected ∨ column.name = "foobar" then
      unselectedOptionsSpec selected rest
    else
      toOption column.name :: unselectedOptionsSpec selected rest

/-- Spec-side reference (spec §4.2 wording, for comparison only): one option
per time-classified column, in input order, and none for any other column. -/
def timeOptionsSpec (mapGreptimeTypeToGrafana : String → FieldType) :
    List ColumnSchema → List SelectableValue
  | [] => []
  | column :: rest =>
    if mapGreptimeTypeToGrafana column.data_type = FieldType.time then
      toOption column.name :: timeOptionsSpec mapGreptimeTypeToGrafana rest
    else
      timeOptionsSpec mapGreptimeTypeToGrafana rest

/-! ### Helper lemmas -/

theorem useMemo_cell_after {κ α : Type} [DecidableEq κ] (producer : κ → α) (key : κ)
    (cell : MemoCell κ α) :
    (useMemo producer key cell).2.1 = ⟨some (key, (useMemo producer key cell).1)⟩ := by
  rcases cell with ⟨_ | ⟨k, v⟩⟩
  · rfl
  · by_cases hk : k = key <;> simp [useMemo, hk]

theorem useMemo_second_read {κ α : Type} [DecidableEq κ] (producer : κ → α) (key : κ)
    (cell : MemoCell κ α) :
    useMemo producer key (useMemo producer key cell).2.1 =
      ((useMemo producer key cell).1, (useMemo producer key cell).2.1, false) := by
  rw [useMemo_cell_after producer key cell]
  simp [useMemo]

theorem useMemo_key_change {κ α : Type} [DecidableEq κ] (producer : κ → α) (key key' : κ)
    (cell : MemoCell κ α) (h : key' ≠ key) :
    useMemo producer key' (useMemo producer key cell).2.1 =
      (producer key', ⟨some (key', producer key')⟩, true) := by
  rw [useMemo_cell_after producer key cell]
  have hne : ¬key = key' := fun hk => h hk.symm
  simp [useMemo, hne]

theorem nodup_append_single {α : Type} (l : List α) (a : α) (h1 : l.Nodup) (h2 : a ∉ l) :
    (l ++ [a]).Nodup := by
  simp [List.nodup_append, h1]
  exact h2

/-! ### Claims -/

/-- C1 (counterexample): with `selectedColumns = ["cpu", "mem"]`, choosing the
new name `"ts"` in slot 0's picker leaves the host query's `selectedColumns`
at `["cpu", "mem"]` — the entry at index 0 is not swapped for `"ts"` as the
claim states, because the slot's change handler commits nothing. -/
theorem reselect_slot_swap_counterexample :
    (hostQueryAfter
        { fromTable := some "metrics", timeColumn := some "time",
          selectedColumns := some ["cpu", "mem"] }
        (reselectSlotOnChange
          { fromTable := some "metrics", timeColumn := some "time",
            selectedColumns := some ["cpu", "mem"] }
          (toOption "ts"))).selectedColumns = some ["cpu", "mem"] ∧
    (hostQueryAfter
        { fromTable := some "metrics", timeColumn := some "time",
          selectedColumns := some ["cpu", "mem"] }
        (reselectSlotOnChange
          { fromTable := some "metrics", timeColumn := some "time",
            selectedColumns := some ["cpu", "mem"] }
          (toOption "ts"))).selectedColumns ≠ some ["ts", "mem"] := by
  exact ⟨rfl, by decide⟩

/-- C1 (amended): the replace gesture on a non-placeholder slot is a no-op —
its change handler is `() => { return; }`, so no query is committed, the host
query is unchanged, and in particular the length of `selectedColumns` is
unchanged. -/
theorem reselect_slot_commits_nothing (query : GreptimeQuery) (select : SelectableValue) :
    hostQueryAfter query (reselectSlotOnChange query select) = query ∧
    ((hostQueryAfter query (reselectSlotOnChange query select)).selectedColumns.getD []).length =
      (query.selectedColumns.getD []).length := by
  exact ⟨rfl, rfl⟩

/-- C4: the reselect options for current value `selfVal` have the option for
`selfVal` as first element and exactly the unselected-column options as the
rest. -/
theorem reselect_options_head_and_tail (selfVal : String) (columns : List ColumnSchema)
    (selectedColumns : List String) :
    (handleLoadReselectColumns selfVal columns selectedColumns).head? =
        some (toOption selfVal) ∧
    (handleLoadReselectColumns selfVal columns selectedColumns).tail =
        handleLoadUnselectedColumns columns selectedColumns := by
  exact ⟨rfl, rfl⟩

/-- C5: `changeQueryByKey` sets exactly the given key to the given value,
leaves every other field unchanged, and writing a field's current value back
returns a record equal to the input (the spread is pure: it builds a fresh
record and never mutates its input, which the value semantics of this
embedding makes implicit). -/
theorem changeQueryByKey_sets_key_preserves_rest (query : GreptimeQuery)
    (v1 v2 : Option String) (v3 : Option (List String)) :
    ((changeQueryByKey query .fromTable v1).fromTable = v1 ∧
      (changeQueryByKey query .fromTable v1).timeColumn = query.timeColumn ∧
      (changeQueryByKey query .fromTable v1).selectedColumns = query.selectedColumns) ∧
    ((changeQueryByKey query .timeColumn v2).timeColumn = v2 ∧
      (changeQueryByKey query .timeColumn v2).fromTable = query.fromTable ∧
      (changeQueryByKey query .timeColumn v2).selectedColumns = query.selectedColumns) ∧
    ((changeQueryByKey query .selectedColumns v3).selectedColumns = v3 ∧
      (changeQueryByKey query .selectedColumns v3).fromTable = query.fromTable ∧
      (changeQueryByKey query .selectedColumns v3).timeColumn = query.timeColumn) ∧
    changeQueryByKey query .fromTable query.fromTable = query ∧
    changeQueryByKey query .timeColumn query.timeColumn = query ∧
    changeQueryByKey query .selectedColumns query.selectedColumns = query := by
  exact ⟨⟨rfl, rfl, rfl⟩, ⟨rfl, rfl, rfl⟩, ⟨rfl, rfl, rfl⟩, rfl, rfl, rfl⟩

/-- C7: with no table chosen (`fromTable` unset) the resolved column list is
empty, so both the time-column options and the unselected-column options are
the empty sequence. -/
theorem no_table_selected_empty_options (mapGreptimeTypeToGrafana : String → FieldType)
    (queryColumnSchemaOfTable : String → List ColumnSchema)
    (oriSelectedColumns : Option (List String)) (query : GreptimeQuery)
    (h : query.fromTable = none) :
    getTimeColumns mapGreptimeTypeToGrafana
        (getColumnSchema queryColumnSchemaOfTable query.fromTable) = [] ∧
    handleLoadUnselectedColumns (getColumnSchema queryColumnSchemaOfTable query.fromTable)
        (selectedColumnsView oriSelectedColumns) = [] := by
  rw [h]
  exact ⟨rfl, rfl⟩

/-- C7 witness: a concrete query with no table chosen yields empty option
lists even though the client would report a column for any table. -/
theorem no_table_selected_empty_options_witness :
    getTimeColumns (fun _ => FieldType.time)
        (getColumnSchema (fun _ => [{ name := "ts", data_type := "TimestampMillisecond" }])
          (GreptimeQuery.mk none none none).fromTable) = [] ∧
    handleLoadUnselectedColumns
        (getColumnSchema (fun _ => [{ name := "ts", data_type := "TimestampMillisecond" }])
          (GreptimeQuery.mk none none none).fromTable)
        (selectedColumnsView none) = [] :=
  no_table_selected_empty_options (fun _ => FieldType.time)
    (fun _ => [{ name := "ts", data_type := "TimestampMillisecond" }]) none
    (GreptimeQuery.mk none none none) rfl

/-- C2 (counterexample): a resolved column literally named `"foobar"` is not
in the (empty) selection, yet the code returns no option for it — the claim's
"exactly one Option per column whose name is not already present in the
selection" fails on this input. -/
theorem unselected_options_foobar_counterexample :
    handleLoadUnselectedColumns [{ name := "foobar", data_type := "String" }]
        (selectedColumnsView (some [])) = [] ∧
    handleLoadUnselectedColumns [{ name := "foobar", data_type := "String" }]
        (selectedColumnsView (some [])) ≠ [toOption "foobar"] := by
  exact ⟨by decide, by decide⟩

/-- C2 (amended): the unselected-column options are exactly one option per
column, in input order, for the columns whose name is neither in the current
selection nor equal to the internal add-slot sentinel `"foobar"`, and no
option for any other column. -/
theorem unselected_options_characterisation (columns : List ColumnSchema)
    (oriSelectedColumns : Option (List String)) :
    handleLoadUnselectedColumns columns (selectedColumnsView oriSelectedColumns) =
      unselectedOptionsSpec (oriSelectedColumns.getD []) columns := by
  induction columns with
  | nil => rfl
  | cons column rest ih =>
    by_cases hmem : column.name ∈ selectedColumnsView oriSelectedColumns
    · have h' : column.name ∈ oriSelectedColumns.getD [] ∨ column.name = "foobar" := by
        simpa [selectedColumnsView] using hmem
      simp [handleLoadUnselectedColumns, unselectedColumnsSchemas, List.filter_cons, hmem, h',
        unselectedOptionsSpec]
      simpa [handleLoadUnselectedColumns, unselectedColumnsSchemas] using ih
    · have h' : ¬(column.name ∈ oriSelectedColumns.getD [] ∨ column.name = "foobar") := by
        simpa [selectedColumnsView] using hmem
      simp [handleLoadUnselectedColumns, unselectedColumnsSchemas, List.filter_cons, hmem, h',
        unselectedOptionsSpec]
      simpa [handleLoadUnselectedColumns, unselectedColumnsSchemas] using ih

/-- C3: appending via the trailing add slot, with the chosen option taken
from the offered unselected-column options and the previous query satisfying
the selection invariants, commits `selectedColumns = previous ++ [chosen]`,
duplicate-free and without the placeholder sentinel. -/
theorem append_column_characterisation (query : GreptimeQuery) (prev : List String)
    (columns : List ColumnSchema) (select : SelectableValue)
    (hsel : query.selectedColumns = some prev)
    (hnodup : prev.Nodup)
    (hsentinel : "foobar" ∉ prev)
    (hchoice : select ∈
      handleLoadUnselectedColumns columns (selectedColumnsView query.selectedColumns)) :
    (handleAddColumn query select).selectedColumns = some (prev ++ [select.value]) ∧
    (prev ++ [select.value]).Nodup ∧
    "foobar" ∉ prev ++ [select.value] := by
  rw [hsel] at hchoice
  simp only [handleLoadUnselectedColumns, unselectedColumnsSchemas, List.mem_map,
    List.mem_filter] at hchoice
  obtain ⟨c, ⟨hcmem, hcfilt⟩, rfl⟩ := hchoice
  simp only [selectedColumnsView, Option.getD_some] at hcfilt
  have hcfacts : c.name ∉ prev ∧ c.name ≠ "foobar" := by
    simpa using hcfilt
  refine ⟨?_, ?_, ?_⟩
  · simp [handleAddColumn, changeQueryByKey, hsel, selectedColumnsView]
  · exact nodup_append_single prev _ hnodup (by simpa [toOption] using hcfacts.1)
  · simp only [toOption, List.mem_append, List.mem_singleton]
    rintro (hfb | hfb)
    · exact hsentinel hfb
    · exact hcfacts.2 hfb.symm

/-- C3 witness: appending `"ts"` (offered, since unselected) to the selection
`["cpu"]` commits `["cpu", "ts"]`, duplicate-free and sentinel-free. -/
theorem append_column_characterisation_witness :
    (handleAddColumn
        { fromTable := some "metrics", timeColumn := none, selectedColumns := some ["cpu"] }
        (toOption "ts")).selectedColumns = some (["cpu"] ++ [(toOption "ts").value]) ∧
    (["cpu"] ++ [(toOption "ts").value]).Nodup ∧
    "foobar" ∉ ["cpu"] ++ [(toOption "ts").value] :=
  append_column_characterisation
    { fromTable := some "metrics", timeColumn := none, selectedColumns := some ["cpu"] }
    ["cpu"]
    [{ name := "ts", data_type := "TimestampMillisecond" },
     { name := "cpu", data_type := "Float64" }]
    (toOption "ts") rfl (by decide) (by decide) (by decide)

/-- C9: the time-column options are exactly one option per column whose
mapped type is `time`, in input order, and no option for any other column. -/
theorem time_column_options_characterisation (mapGreptimeTypeToGrafana : String → FieldType)
    (columns : List ColumnSchema) :
    getTimeColumns mapGreptimeTypeToGrafana columns =
      timeOptionsSpec mapGreptimeTypeToGrafana columns := by
  induction columns with
  | nil => rfl
  | cons column rest ih =>
    simp only [getTimeColumns, List.filter_cons] at ih ⊢
    by_cases h : mapGreptimeTypeToGrafana column.data_type = FieldType.time
    · simp [h, timeOptionsSpec, ih]
    · simp [h, timeOptionsSpec, ih]

/-- C10: for every resolved column list and every selection — also ones not
containing `"foobar"` — no unselected-column option and no tail element of
the reselect options carries the sentinel value `"foobar"`, because the
sentinel is appended to the selection before the not-selected filter runs. -/
theorem sentinel_column_excluded (columns : List ColumnSchema)
    (oriSelectedColumns : Option (List String)) (selfVal : String) :
    ((handleLoadUnselectedColumns columns (selectedColumnsView oriSelectedColumns)).all
        fun option => option.value != "foobar") = true ∧
    (((handleLoadReselectColumns selfVal columns (selectedColumnsView oriSelectedColumns)).tail).all
        fun option => option.value != "foobar") = true := by
  have key : ((handleLoadUnselectedColumns columns (selectedColumnsView oriSelectedColumns)).all
      fun option => option.value != "foobar") = true := by
    rw [List.all_eq_true]
    intro option hopt
    simp only [handleLoadUnselectedColumns, unselectedColumnsSchemas, List.mem_map,
      List.mem_filter] at hopt
    obtain ⟨c, ⟨hcmem, hcfilt⟩, rfl⟩ := hopt
    simp only [Bool.not_eq_true'] at hcfilt
    have hnotmem : c.name ∉ selectedColumnsView oriSelectedColumns := by
      simpa using hcfilt
    have hne : c.name ≠ "foobar" := by
      intro hfb
      exact hnotmem (by simp [selectedColumnsView, hfb])
    simpa [toOption] using hne
  exact ⟨key, key⟩

/-- C6 (counterexample): lodash `defaults` mutates its first argument, so
rendering a host query in which every field is still unset rewrites the
host's query object in place — its value after default-filling differs from
its value before. -/
theorem defaults_mutation_counterexample :
    lodashDefaults { fromTable := none, timeColumn := none, selectedColumns := none }
        defaultQuery ≠
      { fromTable := none, timeColumn := none, selectedColumns := none } := by
  decide

/-- C6 (amended): every commit goes through `changeQueryByKey`, which builds
a fresh record, but default-filling at render time is done with lodash
`defaults`, which writes into the host's query object in place; the host
object is left unchanged by default-filling exactly when its
`selectedColumns` field is already set. -/
theorem defaults_inplace_change_iff (query : GreptimeQuery) :
    lodashDefaults query defaultQuery = query ↔ query.selectedColumns.isSome = true := by
  obtain ⟨f, t, s⟩ := query
  cases f <;> cases t <;> cases s <;>
    simp [lodashDefaults, defaultQuery, fillUndefined]

/-- C8: reading a `useMemo` cell again with the dependency key unchanged
returns the very same computation without re-running the producer (the
table-list computation is keyed by the client, the column-list computation
by the pair (client, fromTable)); changing any part of a key replaces the
entry with a fresh computation; and a failed computation stays the resolved
state for its key while the key is unchanged. -/
theorem schema_cache_memoisation {ClientId : Type} [DecidableEq ClientId]
    (showTables : ClientId → Except String (List String))
    (queryColumnSchemaOfTable : ClientId → String → Except String (List ColumnSchema))
    (client client' : ClientId) (fromTable fromTable' : Option String)
    (cellT : MemoCell ClientId (Except String (List String)))
    (cellC : MemoCell (ClientId × Option String) (Except String (List ColumnSchema)))
    (e : String)
    (hclient : client' ≠ client)
    (hfrom : fromTable' ≠ fromTable)
    (herr : (getAllTablesMemo showTables client cellT).1 = Except.error e) :
    getAllTablesMemo showTables client (getAllTablesMemo showTables client cellT).2.1 =
      ((getAllTablesMemo showTables client cellT).1,
        (getAllTablesMemo showTables client cellT).2.1, false) ∧
    (getAllTablesMemo showTables client' (getAllTablesMemo showTables client cellT).2.1).2.1 =
      ⟨some (client', showTables client')⟩ ∧
    (getAllTablesMemo showTables client (getAllTablesMemo showTables client cellT).2.1).1 =
      Except.error e ∧
    getColumnSchemaMemo queryColumnSchemaOfTable client fromTable
        (getColumnSchemaMemo queryColumnSchemaOfTable client fromTable cellC).2.1 =
      ((getColumnSchemaMemo queryColumnSchemaOfTable client fromTable cellC).1,
        (getColumnSchemaMemo queryColumnSchemaOfTable client fromTable cellC).2.1, false) ∧
    (getColumnSchemaMemo queryColumnSchemaOfTable client fromTable'
        (getColumnSchemaMemo queryColumnSchemaOfTable client fromTable cellC).2.1).2.1 =
      ⟨some ((client, fromTable'),
        columnSchemaProducer queryColumnSchemaOfTable (client, fromTable'))⟩ ∧
    (getColumnSchemaMemo queryColumnSchemaOfTable client' fromTable
        (getColumnSchemaMemo queryColumnSchemaOfTable client fromTable cellC).2.1).2.1 =
      ⟨some ((client', fromTable),
        columnSchemaProducer queryColumnSchemaOfTable (client', fromTable))⟩ := by
  refine ⟨?_, ?_, ?_, ?_, ?_, ?_⟩
  · exact useMemo_second_read showTables client cellT
  · exact congrArg (fun r => r.2.1) (useMemo_key_change showTables client client' cellT hclient)
  · show (useMemo showTables client (useMemo showTables client cellT).2.1).1 = Except.error e
    rw [useMemo_second_read showTables client cellT]
    exact herr
  · exact useMemo_second_read _ (client, fromTable) cellC
  · have hkey : (client, fromTable') ≠ (client, fromTable) := by
      intro hp
      exact hfrom (congrArg Prod.snd hp)
    exact congrArg (fun r => r.2.1)
      (useMemo_key_change _ (client, fromTable) (client, fromTable') cellC hkey)
  · have hkey : (client', fromTable) ≠ (client, fromTable) := by
      intro hp
      exact hclient (congrArg Prod.fst hp)
    exact congrArg (fun r => r.2.1)
      (useMemo_key_change _ (client, fromTable) (client', fromTable) cellC hkey)

/-- A schema client for the C8 witness: client `0` fails to list tables,
every other client succeeds. -/
def showTablesW : Nat → Except String (List String)
  | 0 => Except.error "boom"
  | _ => Except.ok ["metrics"]

/-- A column-schema producer for the C8 witness. -/
def queryColumnSchemaOfTableW : Nat → String → Except String (List ColumnSchema) :=
  fun _ _ => Except.ok [{ name := "ts", data_type := "TimestampMillisecond" }]

/-- C8 witness: the memoisation facts at client `0` (whose table listing
fails with `"boom"`), second client `1`, table `"metrics"` and changed table
key `none`, starting from empty cache cells. -/
theorem schema_cache_memoisation_witness :
    getAllTablesMemo showTablesW 0 (getAllTablesMemo showTablesW 0 ⟨none⟩).2.1 =
      ((getAllTablesMemo showTablesW 0 ⟨none⟩).1,
        (getAllTablesMemo showTablesW 0 ⟨none⟩).2.1, false) ∧
    (getAllTablesMemo showTablesW 1 (getAllTablesMemo showTablesW 0 ⟨none⟩).2.1).2.1 =
      ⟨some (1, showTablesW 1)⟩ ∧
    (getAllTablesMemo showTablesW 0 (getAllTablesMemo showTablesW 0 ⟨none⟩).2.1).1 =
      Except.error "boom" ∧
    getColumnSchemaMemo queryColumnSchemaOfTableW 0 (some "metrics")
        (getColumnSchemaMemo queryColumnSchemaOfTableW 0 (some "metrics") ⟨none⟩).2.1 =
      ((getColumnSchemaMemo queryColumnSchemaOfTableW 0 (some "metrics") ⟨none⟩).1,
        (getColumnSchemaMemo queryColumnSchemaOfTableW 0 (some "metrics") ⟨none⟩).2.1, false) ∧
    (getColumnSchemaMemo queryColumnSchemaOfTableW 0 none
        (getColumnSchemaMemo queryColumnSchemaOfTableW 0 (some "metrics") ⟨none⟩).2.1).2.1 =
      ⟨some ((0, none), columnSchemaProducer queryColumnSchemaOfTableW (0, none))⟩ ∧
    (getColumnSchemaMemo queryColumnSchemaOfTableW 1 (some "metrics")
        (getColumnSchemaMemo queryColumnSchemaOfTableW 0 (some "metrics") ⟨none⟩).2.1).2.1 =
      ⟨some ((1, some "metrics"),
        columnSchemaProducer queryColumnSchemaOfTableW (1, some "metrics"))⟩ :=
  schema_cache_memoisation showTablesW queryColumnSchemaOfTableW 0 1 (some "metrics") none
    ⟨none⟩ ⟨none⟩ "boom" (by decide) (by decide) rfl

end VisualQueryEditor
